import Mathlib

/-
  Verification of the credential-session manager and request-signing layer
  in dialogue_relink/flix.py (class flix).

  The Python source is embedded shallowly:
  * pure computations (canonical-string construction, hashing, signing)
    become Lean functions over Lean data;
  * the mutable object state (self.hostname, self.login, self.password,
    self.key, self.secret, self.expiry) becomes an explicit FlixState record
    threaded through the operations;
  * Python exceptions (TypeError, ValueError) become an Except result;
  * the HTTP call inside authenticate is modelled by its observable outcome:
    either a transport/HTTP failure (requests.exceptions.RequestException,
    which includes non-2xx statuses via raise_for_status) or a parsed JSON
    body with the fields id / secret_access_key / expiry_date.
-/

namespace FlixPy

/-- Python runtime errors the embedded functions can raise. -/
inductive PyErr
  | typeError
  | valueError
  deriving DecidableEq

/-- A naive Python datetime value (no timezone), as produced by
datetime.strptime and datetime.utcnow; micro is the microsecond field. -/
structure DateTime where
  year : Nat
  month : Nat
  day : Nat
  hour : Nat
  minute : Nat
  second : Nat
  micro : Nat
  deriving DecidableEq

/-- Gregorian leap-year test, as Python's datetime uses to validate days. -/
def isLeap (y : Nat) : Bool := (y % 4 == 0 && y % 100 != 0) || y % 400 == 0

/-- Number of days in a month, used by datetime's day-of-month validation. -/
def daysInMonth (y m : Nat) : Nat :=
  if m = 2 then (if isLeap y then 29 else 28)
  else if m = 4 ∨ m = 6 ∨ m = 9 ∨ m = 11 then 30
  else 31

/-- Numeric value of a decimal digit character. -/
def digitVal (c : Char) : Nat := c.toNat - 48

/-- datetime.strptime(s, '%Y-%m-%dT%H:%M:%S') on a zero-padded timestamp
string; none models the ValueError raised on a mismatch or an invalid date.
The parsed datetime has microsecond 0. -/
def strptime (s : String) : Option DateTime :=
  match s.data with
  | [y1, y2, y3, y4, a1, m1, m2, a2, d1, d2, t1, o1, o2, b1, n1, n2, b2, e1, e2] =>
    if a1 = '-' ∧ a2 = '-' ∧ t1 = 'T' ∧ b1 = ':' ∧ b2 = ':' ∧
        y1.isDigit ∧ y2.isDigit ∧ y3.isDigit ∧ y4.isDigit ∧
        m1.isDigit ∧ m2.isDigit ∧ d1.isDigit ∧ d2.isDigit ∧
        o1.isDigit ∧ o2.isDigit ∧ n1.isDigit ∧ n2.isDigit ∧
        e1.isDigit ∧ e2.isDigit then
      let y := 1000 * digitVal y1 + 100 * digitVal y2 + 10 * digitVal y3 + digitVal y4
      let mo := 10 * digitVal m1 + digitVal m2
      let da := 10 * digitVal d1 + digitVal d2
      let ho := 10 * digitVal o1 + digitVal o2
      let mi := 10 * digitVal n1 + digitVal n2
      let se := 10 * digitVal e1 + digitVal e2
      if 1 ≤ y ∧ 1 ≤ mo ∧ mo ≤ 12 ∧ 1 ≤ da ∧ da ≤ daysInMonth y mo ∧
          ho ≤ 23 ∧ mi ≤ 59 ∧ se ≤ 59 then
        some ⟨y, mo, da, ho, mi, se, 0⟩
      else none
    else none
  | _ => none

/-- Python s.split('.')[0]: everything before the first dot. -/
def splitDotHead (s : String) : String :=
  String.mk (s.data.takeWhile (fun c => c != '.'))

/-- Zero-pad a natural number to the given width. -/
def padNum (width n : Nat) : String :=
  let s := toString n
  String.mk (List.replicate (width - s.length) '0') ++ s

/-- datetime.isoformat(): YYYY-MM-DDTHH:MM:SS, with a .ffffff suffix exactly
when the microsecond field is nonzero. -/
def isoformat (d : DateTime) : String :=
  padNum 4 d.year ++ "-" ++ padNum 2 d.month ++ "-" ++ padNum 2 d.day ++ "T" ++
    padNum 2 d.hour ++ ":" ++ padNum 2 d.minute ++ ":" ++ padNum 2 d.second ++
    (if d.micro = 0 then "" else "." ++ padNum 6 d.micro)

/-- Days since 1970-01-01 of a Gregorian civil date (standard
days-from-civil algorithm).  Used to give datetimes an absolute
seconds coordinate so that datetime comparison and timedelta
arithmetic become integer comparison and addition. -/
def daysFromCivil (y m d : Nat) : Int :=
  let yA : Nat := if m ≤ 2 then y - 1 else y
  let era : Nat := yA / 400
  let yoe : Nat := yA - era * 400
  let mp : Nat := (m + 9) % 12
  let doy : Nat := (153 * mp + 2) / 5 + d - 1
  let doe : Nat := yoe * 365 + yoe / 4 - yoe / 100 + doy
  (era : Int) * 146097 + (doe : Int) - 719468

/-- Absolute seconds coordinate of a datetime (whole seconds). -/
def dtToSec (d : DateTime) : Int :=
  daysFromCivil d.year d.month d.day * 86400 +
    (d.hour : Int) * 3600 + (d.minute : Int) * 60 + (d.second : Int)

/-- Parsed JSON body of a successful POST {hostname}/authenticate response:
fields id, secret_access_key, expiry_date. -/
structure AuthResponse where
  id : String
  secret_access_key : String
  expiry_date : String
  deriving DecidableEq

/-- The mutable fields of the flix object. -/
structure FlixState where
  hostname : Option String
  login : Option String
  password : Option String
  key : Option String
  secret : Option String
  expiry : Option DateTime
  deriving DecidableEq

/-- flix.reset: set every field of the state to None.  flix.__init__ calls
this, so it is also the initial state. -/
def reset : FlixState :=
  { hostname := none, login := none, password := none,
    key := none, secret := none, expiry := none }

/-- flix.authenticate(hostname, login, password).  The HTTP outcome is an
explicit input: none models a requests.exceptions.RequestException (transport
failure, or non-2xx via raise_for_status), in which case the function prints
and returns None leaving the state untouched; some r models a parsed JSON
body.  On success the identity fields are stored, then key and secret, and
finally expiry is parsed with strptime('%Y-%m-%dT%H:%M:%S') after dropping
everything from the first dot; if that parse fails, the ValueError escapes
after key and secret were already assigned. -/
def authenticate (hostname login password : String) (resp : Option AuthResponse)
    (st : FlixState) : FlixState × Except PyErr (Option AuthResponse) :=
  match resp with
  | none => (st, .ok none)
  | some r =>
    let st1 := { st with hostname := some hostname, login := some login,
                         password := some password }
    let st2 := { st1 with key := some r.id, secret := some r.secret_access_key }
    match strptime (splitDotHead r.expiry_date) with
    | some d => ({ st2 with expiry := some d }, .ok (some r))
    | none => (st2, .error .valueError)

/-- The refresh test of flix.__get_token: key, secret or expiry is None, or
now + 2 hours is strictly later than the stored expiry (datetime.now() +
timedelta(hours=2) > self.expiry, compared on the absolute seconds axis). -/
def needsRefresh (now : Int) (st : FlixState) : Bool :=
  st.key.isNone || st.secret.isNone ||
    (match st.expiry with
     | none => true
     | some e => decide (now + 7200 > dtToSec e))

/-- flix.__get_token.  now is the current time in absolute seconds; resp is
the HTTP outcome used if a refresh is attempted.  When no refresh is needed
the cached pair is returned unchanged.  When a refresh runs, authenticate is
called with the stored identity; if any identity field is None the string
concatenation login + ':' + password (or hostname + '/authenticate') raises
a TypeError before any state change; if authenticate returns None, the
subscription authentificationToken['id'] raises a TypeError; otherwise key
and secret are reassigned from the token and expiry is re-parsed with
strptime. -/
def getToken (now : Int) (resp : Option AuthResponse) (st : FlixState) :
    FlixState × Except PyErr (String × String) :=
  if needsRefresh now st then
    match st.hostname, st.login, st.password with
    | some hn, some lg, some pw =>
      match authenticate hn lg pw resp st with
      | (st1, .error e) => (st1, .error e)
      | (st1, .ok none) => (st1, .error .typeError)
      | (st1, .ok (some tok)) =>
        let st2 := { st1 with key := some tok.id,
                              secret := some tok.secret_access_key }
        match strptime (splitDotHead tok.expiry_date) with
        | some d => ({ st2 with expiry := some d },
                     .ok (tok.id, tok.secret_access_key))
        | none => (st2, .error .valueError)
    | _, _, _ => (st, .error .typeError)
  else
    (st, .ok (st.key.getD "", st.secret.getD ""))

/-! ## Byte-level primitives used by __fn_sign

Bytes are modelled as natural numbers below 256; byte strings as lists.
MD5, SHA-256, HMAC and base64 are implemented in full so that the signing
pipeline is the code's actual pipeline, not a stub. -/

/-- UTF-8 encoding of one Unicode scalar value. -/
def utf8Char (c : Char) : List Nat :=
  let n := c.toNat
  if n < 128 then [n]
  else if n < 2048 then [192 + n / 64, 128 + n % 64]
  else if n < 65536 then [224 + n / 4096, 128 + (n / 64) % 64, 128 + n % 64]
  else [240 + n / 262144, 128 + (n / 4096) % 64, 128 + (n / 64) % 64, 128 + n % 64]

/-- UTF-8 encoding of a string (Python str.encode('utf-8')). -/
def utf8Bytes (s : String) : List Nat := (s.data.map utf8Char).flatten

/-- Lower-case hex digit character for a value below 16. -/
def hexDigit (n : Nat) : Char :=
  if n < 10 then Char.ofNat (48 + n) else Char.ofNat (87 + n)

/-- Two lower-case hex digit characters of a byte. -/
def byteHexChars (b : Nat) : List Char := [hexDigit (b / 16), hexDigit (b % 16)]

/-- binascii.hexlify: the ASCII bytes of the lower-case hex rendering. -/
def hexlify (bs : List Nat) : List Nat :=
  (bs.map (fun b => (byteHexChars b).map Char.toNat)).flatten

/-- Lower-case hex string of a byte list (hashlib's hexdigest rendering). -/
def bytesToHex (bs : List Nat) : String :=
  String.mk ((bs.map byteHexChars).flatten)

/-- Split a list into consecutive chunks of size n (the length is assumed to
be a multiple of n, as it is after hash padding). -/
def chunkList (n : Nat) (l : List α) : List (List α) :=
  (List.range (l.length / n)).map (fun i => (l.drop (i * n)).take n)

/-- 32-bit left rotation. -/
def rotl32 (r x : Nat) : Nat :=
  ((x <<< r) ||| (x >>> (32 - r))) % 4294967296

/-- 32-bit right rotation. -/
def rotr32 (r x : Nat) : Nat :=
  ((x >>> r) ||| (x <<< (32 - r))) % 4294967296

/-- 32-bit complement. -/
def not32 (x : Nat) : Nat := 4294967295 ^^^ x

/-- Big-endian 32-bit word from four bytes. -/
def beWord : List Nat → Nat
  | [a, b, c, d] => a * 16777216 + b * 65536 + c * 256 + d
  | _ => 0

/-- Four big-endian bytes of a 32-bit word. -/
def beBytes4 (w : Nat) : List Nat :=
  [w / 16777216 % 256, w / 65536 % 256, w / 256 % 256, w % 256]

/-- Little-endian 32-bit word from four bytes. -/
def leWord : List Nat → Nat
  | [a, b, c, d] => a + b * 256 + c * 65536 + d * 16777216
  | _ => 0

/-- Four little-endian bytes of a 32-bit word. -/
def leBytes4 (w : Nat) : List Nat :=
  [w % 256, w / 256 % 256, w / 65536 % 256, w / 16777216 % 256]

/-- Eight big-endian bytes of a 64-bit value. -/
def beBytes8 (w : Nat) : List Nat :=
  beBytes4 (w / 4294967296 % 4294967296) ++ beBytes4 (w % 4294967296)

/-- Eight little-endian bytes of a 64-bit value. -/
def leBytes8 (w : Nat) : List Nat :=
  leBytes4 (w % 4294967296) ++ leBytes4 (w / 4294967296 % 4294967296)

/-- Merkle-Damgard padding shared by MD5 and SHA-256: a 0x80 byte, zeros to
56 mod 64, then the 8-byte bit length (little-endian for MD5, big-endian for
SHA-256). -/
def mdPad (littleEndianLen : Bool) (msg : List Nat) : List Nat :=
  let bitLen := 8 * msg.length
  let zeros := (64 + 55 - msg.length % 64) % 64
  msg ++ [128] ++ List.replicate zeros 0 ++
    (if littleEndianLen then leBytes8 bitLen else beBytes8 bitLen)

/-- The 64 MD5 sine-derived constants (RFC 1321), written in decimal:
entry i is the integer part of |sin(i + 1)| * 2^32. -/
def md5T : List Nat :=
  [3614090360, 3905402710, 606105819, 3250441966, 4118548399, 1200080426,
   2821735955, 4249261313, 1770035416, 2336552879, 4294925233, 2304563134,
   1804603682, 4254626195, 2792965006, 1236535329, 4129170786, 3225465664,
   643717713, 3921069994, 3593408605, 38016083, 3634488961, 3889429448,
   568446438, 3275163606, 4107603335, 1163531501, 2850285829, 4243563512,
   1735328473, 2368359562, 4294588738, 2272392833, 1839030562, 4259657740,
   2763975236, 1272893353, 4139469664, 3200236656, 681279174, 3936430074,
   3572445317, 76029189, 3654602809, 3873151461, 530742520, 3299628645,
   4096336452, 1126891415, 2878612391, 4237533241, 1700485571, 2399980690,
   4293915773, 2240044497, 1873313359, 4264355552, 2734768916, 1309151649,
   4149444226, 3174756917, 718787259, 3951481745]

/-- The MD5 per-round left-rotation amounts. -/
def md5S : List Nat :=
  [7, 12, 17, 22, 7, 12, 17, 22, 7, 12, 17, 22, 7, 12, 17, 22,
   5, 9, 14, 20, 5, 9, 14, 20, 5, 9, 14, 20, 5, 9, 14, 20,
   4, 11, 16, 23, 4, 11, 16, 23, 4, 11, 16, 23, 4, 11, 16, 23,
   6, 10, 15, 21, 6, 10, 15, 21, 6, 10, 15, 21, 6, 10, 15, 21]

/-- One MD5 step on state [a, b, c, d] with message words ws. -/
def md5Step (ws : List Nat) (st : List Nat) (i : Nat) : List Nat :=
  match st with
  | [a, b, c, d] =>
    let fg :=
      if i < 16 then ((b &&& c) ||| (not32 b &&& d), i)
      else if i < 32 then ((d &&& b) ||| (not32 d &&& c), (5 * i + 1) % 16)
      else if i < 48 then (b ^^^ c ^^^ d, (3 * i + 5) % 16)
      else (c ^^^ (b ||| not32 d), (7 * i) % 16)
    let f := (fg.1 + a + md5T.getD i 0 + ws.getD fg.2 0) % 4294967296
    [d, (b + rotl32 (md5S.getD i 0) f) % 4294967296, b, c]
  | _ => st

/-- MD5 compression of one 64-byte block into the running state. -/
def md5Compress (st : List Nat) (block : List Nat) : List Nat :=
  let ws := (chunkList 4 block).map leWord
  let st1 := (List.range 64).foldl (md5Step ws) st
  (st.zip st1).map (fun p => (p.1 + p.2) % 4294967296)

/-- MD5 digest (16 bytes) of a byte list (RFC 1321). -/
def md5 (msg : List Nat) : List Nat :=
  let blocks := chunkList 64 (mdPad true msg)
  let st := blocks.foldl md5Compress [1732584193, 4023233417, 2562383102, 271733878]
  (st.map leBytes4).flatten

/-- hashlib.md5(...).hexdigest(). -/
def md5Hex (msg : List Nat) : String := bytesToHex (md5 msg)

/-- The 64 SHA-256 round constants (FIPS 180-4), written in decimal: the
first 32 bits of the fractional parts of the cube roots of the first 64
primes. -/
def sha256K : List Nat :=
  [1116352408, 1899447441, 3049323471, 3921009573, 961987163, 1508970993,
   2453635748, 2870763221, 3624381080, 310598401, 607225278, 1426881987,
   1925078388, 2162078206, 2614888103, 3248222580, 3835390401, 4022224774,
   264347078, 604807628, 770255983, 1249150122, 1555081692, 1996064986,
   2554220882, 2821834349, 2952996808, 3210313671, 3336571891, 3584528711,
   113926993, 338241895, 666307205, 773529912, 1294757372, 1396182291,
   1695183700, 1986661051, 2177026350, 2456956037, 2730485921, 2820302411,
   3259730800, 3345764771, 3516065817, 3600352804, 4094571909, 275423344,
   430227734, 506948616, 659060556, 883997877, 958139571, 1322822218,
   1537002063, 1747873779, 1955562222, 2024104815, 2227730452, 2361852424,
   2428436474, 2756734187, 3204031479, 3329325298]

/-- Extend a SHA-256 message schedule by one word. -/
def sha256Next (w : List Nat) : Nat :=
  let x15 := w.getD (w.length - 15) 0
  let x2 := w.getD (w.length - 2) 0
  let s0 := rotr32 7 x15 ^^^ rotr32 18 x15 ^^^ (x15 >>> 3)
  let s1 := rotr32 17 x2 ^^^ rotr32 19 x2 ^^^ (x2 >>> 10)
  (w.getD (w.length - 16) 0 + s0 + w.getD (w.length - 7) 0 + s1) % 4294967296

/-- The 64-word SHA-256 message schedule of one block. -/
def sha256Schedule (block16 : List Nat) : List Nat :=
  (List.range 48).foldl (fun w _ => w ++ [sha256Next w]) block16

/-- One SHA-256 round on state [a, b, c, d, e, f, g, h]. -/
def sha256Step (ws : List Nat) (st : List Nat) (i : Nat) : List Nat :=
  match st with
  | [a, b, c, d, e, f, g, h] =>
    let s1 := rotr32 6 e ^^^ rotr32 11 e ^^^ rotr32 25 e
    let ch := (e &&& f) ^^^ (not32 e &&& g)
    let t1 := (h + s1 + ch + sha256K.getD i 0 + ws.getD i 0) % 4294967296
    let s0 := rotr32 2 a ^^^ rotr32 13 a ^^^ rotr32 22 a
    let mj := (a &&& b) ^^^ (a &&& c) ^^^ (b &&& c)
    let t2 := (s0 + mj) % 4294967296
    [(t1 + t2) % 4294967296, a, b, c, (d + t1) % 4294967296, e, f, g]
  | _ => st

/-- SHA-256 compression of one 64-byte block into the running state. -/
def sha256Compress (st : List Nat) (block : List Nat) : List Nat :=
  let ws := sha256Schedule ((chunkList 4 block).map beWord)
  let st1 := (List.range 64).foldl (sha256Step ws) st
  (st.zip st1).map (fun p => (p.1 + p.2) % 4294967296)

/-- SHA-256 digest (32 bytes) of a byte list (FIPS 180-4). -/
def sha256 (msg : List Nat) : List Nat :=
  let blocks := chunkList 64 (mdPad false msg)
  let st := blocks.foldl sha256Compress
    [1779033703, 3144134277, 1013904242, 2773480762,
     1359893119, 2600822924, 528734635, 1541459225]
  (st.map beBytes4).flatten

/-- hmac.new(key, msg, digestmod=hashlib.sha256).digest() (RFC 2104). -/
def hmacSha256 (key msg : List Nat) : List Nat :=
  let k0 := if 64 < key.length then sha256 key else key
  let kp := k0 ++ List.replicate (64 - k0.length) 0
  let ipad := kp.map (fun b => b ^^^ 54)
  let opad := kp.map (fun b => b ^^^ 92)
  sha256 (opad ++ sha256 (ipad ++ msg))

/-- The base64 alphabet character of a 6-bit value. -/
def b64Char (n : Nat) : Char :=
  if n < 26 then Char.ofNat (65 + n)
  else if n < 52 then Char.ofNat (97 + (n - 26))
  else if n < 62 then Char.ofNat (48 + (n - 52))
  else if n = 62 then '+' else '/'

/-- Standard base64 of a byte list, with '=' padding. -/
def b64Chars : List Nat → List Char
  | a :: b :: c :: rest =>
    let w := a * 65536 + b * 256 + c
    b64Char (w / 262144) :: b64Char (w / 4096 % 64) ::
      b64Char (w / 64 % 64) :: b64Char (w % 64) :: b64Chars rest
  | [a, b] =>
    let w := a * 1024 + b * 4
    [b64Char (w / 4096), b64Char (w / 64 % 64), b64Char (w % 64), '=']
  | [a] =>
    let w := a * 16
    [b64Char (w / 64), b64Char (w % 64), '=', '=']
  | [] => []

/-- base64.b64encode, decoded back to a string. -/
def base64Encode (bs : List Nat) : String := String.mk (b64Chars bs)

/-! ## The request signer (__fn_sign) -/

/-- The content argument of __fn_sign, a Python object: a text string, a
byte string, a dict (carried with string values; jsonDumps below renders
json.dumps of it), or any other object, of which only the truth value
matters (other false covers None, 0, [], and so on; other true covers
truthy objects of unhandled types such as non-empty lists or numbers). -/
inductive Content
  | none
  | str (s : String)
  | bytes (b : List Nat)
  | dict (entries : List (String × String))
  | other (truthy : Bool)
  deriving DecidableEq

/-- Python truth value of a content object (the test `if content:`). -/
def truthy : Content → Bool
  | .none => false
  | .str s => s != ""
  | .bytes b => !b.isEmpty
  | .dict entries => !entries.isEmpty
  | .other t => t

/-- json.dumps of a string-valued dict, with the default separators. -/
def jsonDumps (entries : List (String × String)) : String :=
  "\x7b" ++
    String.intercalate ", "
      (entries.map (fun p => "\"" ++ p.1 ++ "\": \"" ++ p.2 ++ "\"")) ++
  "\x7d"

/-- The content-fingerprint block of __fn_sign (lines 118-127): with falsy
content, content_md5 stays ''.  With a truthy str, Python 3's
hashlib.md5(content) raises TypeError because the str was never encoded.
With bytes, the bytes are hex-encoded first and MD5 runs over the hex
representation.  With a dict, MD5 runs over the UTF-8 bytes of json.dumps.
Truthy content of any other type falls through every isinstance test and
leaves content_md5 = ''. -/
def contentMd5 (c : Content) : Except PyErr String :=
  if truthy c then
    match c with
    | .str _ => .error .typeError
    | .bytes b => .ok (md5Hex (hexlify b))
    | .dict entries => .ok (md5Hex (utf8Bytes (jsonDumps entries)))
    | _ => .ok ""
  else .ok ""

/-- Python url.split('?')[0]. -/
def urlWithoutQueryParams (url : String) : String :=
  String.mk (url.data.takeWhile (fun c => c != '?'))

/-- Python str.upper() on the ASCII method names the signer receives. -/
def strUpper (s : String) : String := String.mk (s.data.map Char.toUpper)

/-- The canonical string built by __fn_sign (lines 117-136): the uppercased
method, the fingerprint/content-type block (two empty lines when content_md5
is ''), the isoformat timestamp truncated at the first dot with a literal Z,
and the url with its query string stripped, with no trailing newline. -/
def canonicalString (url : String) (content : Content)
    (httpMethod contentType : String) (dt : DateTime) : Except PyErr String :=
  match contentMd5 content with
  | .error e => .error e
  | .ok fp =>
    let raw1 := strUpper httpMethod ++ "\n"
    let raw2 := if fp ≠ "" then raw1 ++ fp ++ "\n" ++ contentType ++ "\n"
                else raw1 ++ "\n\n"
    let raw3 := raw2 ++ splitDotHead (isoformat dt) ++ "Z" ++ "\n"
    .ok (raw3 ++ urlWithoutQueryParams url)

/-- flix.__fn_sign: build the canonical string, raise ValueError when
secret_access_key is empty, otherwise return
'FNAUTH ' + access_key_id + ':' + base64(HMAC-SHA256(secret, canonical)). -/
def fnSign (accessKeyId secretAccessKey url : String) (content : Content)
    (httpMethod contentType : String) (dt : DateTime) : Except PyErr String :=
  match canonicalString url content httpMethod contentType dt with
  | .error e => .error e
  | .ok raw =>
    if secretAccessKey.length = 0 then .error .valueError
    else
      .ok ("FNAUTH " ++ accessKeyId ++ ":" ++
        base64Encode (hmacSha256 (utf8Bytes secretAccessKey) (utf8Bytes raw)))

/-! ## Operation sequences over the credential state -/

/-- One call into the credential core, with the inputs it consumes: an
explicit authenticate, a __get_token (at a given time, with the HTTP outcome
a refresh would observe), or a reset. -/
inductive Op
  | auth (hostname login password : String) (resp : Option AuthResponse)
  | getTok (now : Int) (resp : Option AuthResponse)
  | doReset

/-- The state after one operation (results and exceptions discarded). -/
def applyOp (st : FlixState) (op : Op) : FlixState :=
  match op with
  | .auth hn lg pw resp => (authenticate hn lg pw resp st).1
  | .getTok now resp => (getToken now resp st).1
  | .doReset => reset

/-- The state after a sequence of operations, from the initial (reset)
state that flix.__init__ creates. -/
def runOps (ops : List Op) : FlixState := ops.foldl applyOp reset

/-- The three token fields are all present or all absent. -/
def tokenTogether (st : FlixState) : Prop :=
  (st.key = none ∧ st.secret = none ∧ st.expiry = none) ∨
    (st.key ≠ none ∧ st.secret ≠ none ∧ st.expiry ≠ none)

/-- An HTTP outcome is well formed when a successful body's expiry_date
parses under strptime after its fraction is dropped — the shape the
interface documents for the authenticate endpoint. -/
def wfResp : Option AuthResponse → Bool
  | Option.none => true
  | some r => (strptime (splitDotHead r.expiry_date)).isSome

/-- An operation is well formed when the HTTP outcome it consumes is. -/
def wfOp : Op → Bool
  | .auth _ _ _ resp => wfResp resp
  | .getTok _ resp => wfResp resp
  | .doReset => true

/-- The content-fingerprint step of __fn_sign completes without raising
(true for everything except a truthy str, whose missing .encode() makes
hashlib.md5 raise TypeError under Python 3). -/
def fingerprintOk (c : Content) : Bool :=
  match contentMd5 c with
  | .ok _ => true
  | .error _ => false

/-- A string of length zero is the empty string. -/
theorem string_length_zero (s : String) (h : s.length = 0) : s = "" := by
  cases s with
  | mk data =>
    cases data with
    | nil => rfl
    | cons a l => simp [String.length] at h

/-! ## Claim theorems -/

/-- C1: for method "GET", no content, url "/show/1/sequence/2/revision/1"
and the timestamp 2024-01-01T00:00:00, the canonical string built by
__fn_sign is exactly the uppercased method line, two empty lines for absent
content, the whole-second timestamp with a literal Z, and the path with no
trailing newline. -/
theorem canonical_get_scenario :
    canonicalString "/show/1/sequence/2/revision/1" Content.none "GET"
      "application/json" ⟨2024, 1, 1, 0, 0, 0, 0⟩ =
      Except.ok "GET\n\n\n2024-01-01T00:00:00Z\n/show/1/sequence/2/revision/1" := rfl

/-- C2: whenever the canonical string is built successfully and the secret
is non-empty, __fn_sign returns the literal prefix FNAUTH followed by the
access key id, a colon, and the base64 encoding of the raw HMAC-SHA256
digest of the UTF-8 canonical string keyed by the UTF-8 secret. -/
theorem fnSign_fnauth_shape (accessKeyId secretAccessKey url : String)
    (content : Content) (httpMethod contentType : String) (dt : DateTime)
    (raw : String)
    (hc : canonicalString url content httpMethod contentType dt = Except.ok raw)
    (hs : secretAccessKey ≠ "") :
    fnSign accessKeyId secretAccessKey url content httpMethod contentType dt =
      Except.ok ("FNAUTH " ++ accessKeyId ++ ":" ++
        base64Encode (hmacSha256 (utf8Bytes secretAccessKey) (utf8Bytes raw))) := by
  have hlen : ¬ secretAccessKey.length = 0 := fun h => hs (string_length_zero _ h)
  unfold fnSign
  rw [hc]
  simp [hlen]

/-- Witness for C2 at a concrete GET request with no content. -/
theorem fnSign_fnauth_shape_witness :
    canonicalString "/u" Content.none "GET" "application/json"
        ⟨2024, 1, 1, 0, 0, 0, 0⟩ =
      Except.ok "GET\n\n\n2024-01-01T00:00:00Z\n/u" ∧
    ("s" : String) ≠ "" ∧
    fnSign "k" "s" "/u" Content.none "GET" "application/json"
        ⟨2024, 1, 1, 0, 0, 0, 0⟩ =
      Except.ok ("FNAUTH " ++ "k" ++ ":" ++
        base64Encode (hmacSha256 (utf8Bytes "s")
          (utf8Bytes "GET\n\n\n2024-01-01T00:00:00Z\n/u"))) :=
  ⟨rfl, by decide,
    fnSign_fnauth_shape "k" "s" "/u" Content.none "GET" "application/json"
      ⟨2024, 1, 1, 0, 0, 0, 0⟩ "GET\n\n\n2024-01-01T00:00:00Z\n/u" rfl (by decide)⟩

/-- C4 counterexample: with an empty secret but a non-empty str content,
__fn_sign raises TypeError (from hashlib.md5 on an unencoded str) before it
ever reaches the empty-secret check, so the failure is not the claimed
ValueError. -/
theorem fnSign_empty_secret_cex :
    fnSign "k" "" "/url" (Content.str "foo") "GET" "application/json"
      ⟨2024, 1, 1, 0, 0, 0, 0⟩ = Except.error PyErr.typeError ∧
    PyErr.typeError ≠ PyErr.valueError :=
  ⟨rfl, by decide⟩

/-- C4 amended: for every input whose fingerprint step completes (content is
not a non-empty text string), an empty secret_access_key makes __fn_sign
fail with ValueError, regardless of the other arguments. -/
theorem fnSign_empty_secret_valueError (accessKeyId url : String)
    (content : Content) (httpMethod contentType : String) (dt : DateTime)
    (hfp : fingerprintOk content = true) :
    fnSign accessKeyId "" url content httpMethod contentType dt =
      Except.error PyErr.valueError := by
  unfold fnSign canonicalString
  cases hc : contentMd5 content with
  | error e => simp [fingerprintOk, hc] at hfp
  | ok fp => simp

/-- Witness for the amended C4 at a concrete request with no content. -/
theorem fnSign_empty_secret_valueError_witness :
    fingerprintOk Content.none = true ∧
    fnSign "k" "" "/u" Content.none "GET" "application/json"
      ⟨2024, 1, 1, 0, 0, 0, 0⟩ = Except.error PyErr.valueError :=
  ⟨by decide,
    fnSign_empty_secret_valueError "k" "/u" Content.none "GET" "application/json"
      ⟨2024, 1, 1, 0, 0, 0, 0⟩ (by decide)⟩

/-- C5: evaluating __fn_sign at text content "foo" (with a valid secret):
Python 3's hashlib.md5 rejects the unencoded str, so the call raises
TypeError instead of producing the text fingerprint the spec describes. -/
theorem fnSign_str_content_typeError :
    fnSign "k" "secret" "/url" (Content.str "foo") "GET" "application/json"
      ⟨2024, 1, 1, 0, 0, 0, 0⟩ = Except.error PyErr.typeError := rfl

/-- C6 counterexample: on a transport or non-2xx failure, authenticate
returns the null result None (Python prints and returns None) instead of
surfacing a typed error. -/
theorem authenticate_failure_null_cex :
    (authenticate "https://example" "user" "pw" none reset).2 =
      Except.ok none := rfl

/-- C6 amended: on any transport or non-2xx failure, authenticate swallows
the failure, returning None to its caller and leaving the state unchanged;
no typed error is raised. -/
theorem authenticate_failure_returns_none (hn lg pw : String) (st : FlixState) :
    (authenticate hn lg pw none st).2 = Except.ok none ∧
    (authenticate hn lg pw none st).1 = st :=
  ⟨rfl, rfl⟩

/-- C8: when authenticate succeeds and the response's expiry_date parses
(after discarding everything from the first dot, i.e. the sub-second
fraction), the stored expiry is exactly that truncated timestamp. -/
theorem authenticate_stores_truncated_expiry (hn lg pw : String)
    (r : AuthResponse) (st : FlixState) (d : DateTime)
    (hd : strptime (splitDotHead r.expiry_date) = some d) :
    ((authenticate hn lg pw (some r) st).1).expiry = some d := by
  simp [authenticate, hd]

/-- Witness for C8 at the spec's scenario: expiry_date
"2024-01-01T10:00:00.123456" stores expiry 2024-01-01T10:00:00. -/
theorem authenticate_stores_truncated_expiry_witness :
    strptime (splitDotHead "2024-01-01T10:00:00.123456") =
      some ⟨2024, 1, 1, 10, 0, 0, 0⟩ ∧
    ((authenticate "h" "l" "p"
        (some ⟨"i", "s", "2024-01-01T10:00:00.123456"⟩) reset).1).expiry =
      some ⟨2024, 1, 1, 10, 0, 0, 0⟩ :=
  ⟨by decide,
    authenticate_stores_truncated_expiry "h" "l" "p"
      ⟨"i", "s", "2024-01-01T10:00:00.123456"⟩ reset
      ⟨2024, 1, 1, 10, 0, 0, 0⟩ (by decide)⟩

/-- C9: when the POST raises a transport-level request exception (including
non-2xx via raise_for_status), authenticate returns None and every field of
the credential state is exactly as before the call. -/
theorem authenticate_transport_failure_id (hn lg pw : String) (st : FlixState) :
    authenticate hn lg pw none st = (st, Except.ok none) := rfl

/-- C3: with all three token fields present, __get_token refreshes exactly
when now + 2h is strictly past the stored expiry; removing any one of the
three fields forces a refresh; at expiry - 2h - 1s no refresh happens and
the cached pair comes back with the state unchanged; at expiry - 2h + 1s a
refresh is triggered. -/
theorem getToken_refresh_boundary (st : FlixState) (now : Int)
    (resp : Option AuthResponse) (k s : String) (e : DateTime)
    (hk : st.key = some k) (hs : st.secret = some s) (he : st.expiry = some e) :
    (needsRefresh now st = true ↔ now + 7200 > dtToSec e)
    ∧ needsRefresh now { st with key := none } = true
    ∧ needsRefresh now { st with secret := none } = true
    ∧ needsRefresh now { st with expiry := none } = true
    ∧ needsRefresh (dtToSec e - 7201) st = false
    ∧ needsRefresh (dtToSec e - 7199) st = true
    ∧ getToken (dtToSec e - 7201) resp st = (st, Except.ok (k, s)) := by
  have hNo : needsRefresh (dtToSec e - 7201) st = false := by
    simp [needsRefresh, hk, hs, he]
    omega
  refine ⟨?_, ?_, ?_, ?_, hNo, ?_, ?_⟩
  · simp [needsRefresh, hk, hs, he]
  · simp [needsRefresh]
  · simp [needsRefresh]
  · simp [needsRefresh]
  · simp [needsRefresh, hk, hs, he]
    omega
  · simp [getToken, hNo, hk, hs]

/-- A concrete fully-populated credential state for the C3 witness. -/
def stDemo : FlixState :=
  { hostname := some "h", login := some "l", password := some "p",
    key := some "k", secret := some "s",
    expiry := some ⟨2024, 1, 1, 10, 0, 0, 0⟩ }

/-- Witness for C3 at stDemo with expiry 2024-01-01T10:00:00. -/
theorem getToken_refresh_boundary_witness :
    stDemo.key = some "k" ∧ stDemo.secret = some "s" ∧
    stDemo.expiry = some ⟨2024, 1, 1, 10, 0, 0, 0⟩ ∧
    ((needsRefresh 0 stDemo = true ↔ 0 + 7200 > dtToSec ⟨2024, 1, 1, 10, 0, 0, 0⟩)
      ∧ needsRefresh 0 { stDemo with key := none } = true
      ∧ needsRefresh 0 { stDemo with secret := none } = true
      ∧ needsRefresh 0 { stDemo with expiry := none } = true
      ∧ needsRefresh (dtToSec ⟨2024, 1, 1, 10, 0, 0, 0⟩ - 7201) stDemo = false
      ∧ needsRefresh (dtToSec ⟨2024, 1, 1, 10, 0, 0, 0⟩ - 7199) stDemo = true
      ∧ getToken (dtToSec ⟨2024, 1, 1, 10, 0, 0, 0⟩ - 7201) none stDemo =
          (stDemo, Except.ok ("k", "s"))) :=
  ⟨rfl, rfl, rfl,
    getToken_refresh_boundary stDemo 0 none "k" "s" ⟨2024, 1, 1, 10, 0, 0, 0⟩
      rfl rfl rfl⟩

/-- authenticate on a successful body whose expiry_date parses: the full
resulting state and return value. -/
theorem authenticate_some_eq (hn lg pw : String) (r : AuthResponse)
    (st : FlixState) (d : DateTime)
    (hd : strptime (splitDotHead r.expiry_date) = some d) :
    authenticate hn lg pw (some r) st =
      ({ hostname := some hn, login := some lg, password := some pw,
         key := some r.id, secret := some r.secret_access_key,
         expiry := some d }, Except.ok (some r)) := by
  cases st with
  | mk h0 l0 p0 k0 s0 e0 => simp [authenticate, hd]

/-- One well-formed operation preserves the all-or-nothing token property. -/
theorem applyOp_tokenTogether (st : FlixState) (op : Op) (hwf : wfOp op = true)
    (h : tokenTogether st) : tokenTogether (applyOp st op) := by
  cases op with
  | doReset => exact Or.inl ⟨rfl, rfl, rfl⟩
  | auth hn lg pw resp =>
    cases resp with
    | none => exact h
    | some r =>
      have hwf2 : (strptime (splitDotHead r.expiry_date)).isSome = true := hwf
      obtain ⟨d, hd⟩ := Option.isSome_iff_exists.mp hwf2
      show tokenTogether (authenticate hn lg pw (some r) st).1
      rw [authenticate_some_eq hn lg pw r st d hd]
      exact Or.inr ⟨by simp, by simp, by simp⟩
  | getTok now resp =>
    show tokenTogether (getToken now resp st).1
    unfold getToken
    split
    · split
      · rename_i hn lg pw hhn hlg hpw
        cases resp with
        | none => exact h
        | some r =>
          have hwf2 : (strptime (splitDotHead r.expiry_date)).isSome = true := hwf
          obtain ⟨d, hd⟩ := Option.isSome_iff_exists.mp hwf2
          rw [authenticate_some_eq hn lg pw r st d hd]
          simp [hd, tokenTogether]
      · exact h
    · exact h

/-- Helper: a run of well-formed operations keeps the token fields moving
as a unit from any state that satisfies the property. -/
theorem foldl_tokenTogether : ∀ (ops : List Op) (st : FlixState),
    ops.all wfOp = true → tokenTogether st →
    tokenTogether (ops.foldl applyOp st) := by
  intro ops
  induction ops with
  | nil => intro st _ h; exact h
  | cons op rest ih =>
    intro st hwf h
    rw [List.all_cons, Bool.and_eq_true] at hwf
    exact ih _ hwf.2 (applyOp_tokenTogether st op hwf.1 h)

/-- C7 counterexample: one authenticate whose body carries an unparseable
expiry_date assigns key and secret, then the strptime ValueError escapes
before expiry is assigned, leaving the three token fields out of step. -/
theorem tokenTogether_cex :
    ¬ tokenTogether
      (runOps [Op.auth "h" "l" "p" (some ⟨"id", "sec", "not-a-date"⟩)]) := by
  intro hcon
  rcases hcon with ⟨hk, _, _⟩ | ⟨_, _, he⟩
  · exact Option.noConfusion hk
  · exact he rfl

/-- C7 amended: provided every successful authentication body consumed has
an expiry_date that parses in the documented format, any sequence of
authenticate, __get_token and reset calls from the initial empty state
leaves the three token fields all present or all absent. -/
theorem runOps_tokenTogether (ops : List Op) (hwf : ops.all wfOp = true) :
    tokenTogether (runOps ops) :=
  foldl_tokenTogether ops reset hwf (Or.inl ⟨rfl, rfl, rfl⟩)

/-- Witness for the amended C7 on a concrete three-operation run. -/
theorem runOps_tokenTogether_witness :
    ([Op.auth "h" "l" "p" (some ⟨"i", "s", "2024-01-01T10:00:00.123456"⟩),
      Op.getTok 0 none, Op.doReset].all wfOp = true) ∧
    tokenTogether (runOps
      [Op.auth "h" "l" "p" (some ⟨"i", "s", "2024-01-01T10:00:00.123456"⟩),
       Op.getTok 0 none, Op.doReset]) :=
  ⟨by decide, runOps_tokenTogether _ (by decide)⟩

/-- C10: truthy content of a type that is neither str, bytes nor dict falls
through every isinstance test: no fingerprint is computed, the canonical
string equals the no-content canonical string, and so does the signature. -/
theorem fnSign_unhandled_content (accessKeyId secretAccessKey url : String)
    (httpMethod contentType : String) (dt : DateTime) :
    contentMd5 (Content.other true) = Except.ok "" ∧
    canonicalString url (Content.other true) httpMethod contentType dt =
      canonicalString url Content.none httpMethod contentType dt ∧
    fnSign accessKeyId secretAccessKey url (Content.other true) httpMethod
        contentType dt =
      fnSign accessKeyId secretAccessKey url Content.none httpMethod
        contentType dt :=
  ⟨rfl, rfl, rfl⟩

end FlixPy
